import Mathlib

/-!
Verification of the draconis Rust binding layer
(src/bindings/rust/src/types.rs and lib.rs).

The binding wraps the native C library behind FFI calls. Every binding
function is embedded here as a pure function of the outcome of the
underlying native call (its returned status code and the data it wrote
through out-parameters); pointers are embedded as Option values, with
none standing for a null pointer. The native cache manager and plugin
loader live outside the binding crate; where a property depends on their
behaviour, a definition modelled from the spec is used and marked as such.
-/

namespace Draconis

/-! ### Error codes (types.rs lines 7-85) -/

def DRAC_SUCCESS : Int := 255
def DRAC_ERROR_API_UNAVAILABLE : Int := 0
def DRAC_ERROR_CONFIGURATION_ERROR : Int := 1
def DRAC_ERROR_CORRUPTED_DATA : Int := 2
def DRAC_ERROR_INTERNAL_ERROR : Int := 3
def DRAC_ERROR_INVALID_ARGUMENT : Int := 4
def DRAC_ERROR_IO_ERROR : Int := 5
def DRAC_ERROR_NETWORK_ERROR : Int := 6
def DRAC_ERROR_NOT_FOUND : Int := 7
def DRAC_ERROR_NOT_SUPPORTED : Int := 8
def DRAC_ERROR_OTHER : Int := 9
def DRAC_ERROR_OUT_OF_MEMORY : Int := 10
def DRAC_ERROR_PARSE_ERROR : Int := 11
def DRAC_ERROR_PERMISSION_DENIED : Int := 12
def DRAC_ERROR_PERMISSION_REQUIRED : Int := 13
def DRAC_ERROR_PLATFORM_SPECIFIC : Int := 14
def DRAC_ERROR_RESOURCE_EXHAUSTED : Int := 15
def DRAC_ERROR_TIMEOUT : Int := 16
def DRAC_ERROR_UNAVAILABLE_FEATURE : Int := 17

/-- The ErrorCode enum of types.rs: 18 error kinds plus the Success sentinel. -/
inductive ErrorCode where
  | apiUnavailable
  | configurationError
  | corruptedData
  | internalError
  | invalidArgument
  | ioError
  | networkError
  | notFound
  | notSupported
  | other
  | outOfMemory
  | parseError
  | permissionDenied
  | permissionRequired
  | platformSpecific
  | resourceExhausted
  | timeout
  | unavailableFeature
  | success
deriving DecidableEq, Repr

/-- Embeds the From DracErrorCode for ErrorCode conversion of types.rs:
a match on the wire constants (the named DRAC constants above, written
here as their literal values 0..17 and 255) with a catch-all arm mapping
every unrecognized code to Other. -/
def errorCodeFromDrac (code : Int) : ErrorCode :=
  match code with
  | 0 => .apiUnavailable
  | 1 => .configurationError
  | 2 => .corruptedData
  | 3 => .internalError
  | 4 => .invalidArgument
  | 5 => .ioError
  | 6 => .networkError
  | 7 => .notFound
  | 8 => .notSupported
  | 9 => .other
  | 10 => .outOfMemory
  | 11 => .parseError
  | 12 => .permissionDenied
  | 13 => .permissionRequired
  | 14 => .platformSpecific
  | 15 => .resourceExhausted
  | 16 => .timeout
  | 17 => .unavailableFeature
  | 255 => .success
  | _ => .other

/-! ### Battery (types.rs lines 30-34, 89-109, 160-165, 277-303) -/

def DRAC_BATTERY_UNKNOWN : Int := 0
def DRAC_BATTERY_CHARGING : Int := 1
def DRAC_BATTERY_DISCHARGING : Int := 2
def DRAC_BATTERY_FULL : Int := 3
def DRAC_BATTERY_NOT_PRESENT : Int := 4

inductive BatteryStatus where
  | unknown
  | charging
  | discharging
  | full
  | notPresent
deriving DecidableEq, Repr

/-- Embeds the From DracBatteryStatus for BatteryStatus conversion of
types.rs: a match on the wire constants (written as their literal
values) with a catch-all arm mapping to Unknown. -/
def batteryStatusFromDrac (status : Int) : BatteryStatus :=
  match status with
  | 0 => .unknown
  | 1 => .charging
  | 2 => .discharging
  | 3 => .full
  | 4 => .notPresent
  | _ => .unknown

/-- The raw sys::DracBattery struct the native call writes: status is an
i32 enum value, percentage a u8 (0..=255), timeRemainingSecs an i64. -/
structure DracBattery where
  status : Int
  percentage : Nat
  timeRemainingSecs : Int
deriving DecidableEq, Repr

/-- The decoded Battery struct of types.rs with explicit options. -/
structure Battery where
  status : BatteryStatus
  percentage : Option Nat
  time_remaining_secs : Option Int
deriving DecidableEq, Repr

/-- Embeds get_battery_info of types.rs as a function of the native
call's outcome: the returned status code and the DracBattery it wrote.
On DRAC_SUCCESS the raw struct is decoded (percentage 255 and negative
seconds are the absence sentinels); otherwise the code is converted. -/
def get_battery_info (result : Int) (battery : DracBattery) :
    Except ErrorCode Battery :=
  if result = DRAC_SUCCESS then
    .ok { status := batteryStatusFromDrac battery.status
          percentage :=
            if battery.percentage = 255 then none else some battery.percentage
          time_remaining_secs :=
            if battery.timeRemainingSecs < 0 then none
            else some battery.timeRemainingSecs }
  else
    .error (errorCodeFromDrac result)

/-! ### Cache manager (types.rs lines 167-191) and collector dispatch -/

/-- The metric kinds dispatched through the cache in types.rs (uptime is
excluded: DracGetUptime takes no cache argument and is computed fresh). -/
inductive MetricKind where
  | memInfo
  | cpuCores
  | operatingSystem
  | batteryInfo
  | cpuModel
  | gpuModel
  | desktopEnvironment
  | windowManager
  | shell
  | host
  | kernelVersion
  | diskUsage
  | disks
  | systemDisk
  | outputs
  | primaryOutput
  | networkInterfaces
  | primaryNetworkInterface
deriving DecidableEq, Repr

/-- Modelled from the spec: the native cache manager behind
DracCreateCacheManager / DracDestroyCacheManager is not under
src/bindings; per the spec it is a memoization store keyed by metric
kind, created empty, populated as metrics are first requested. Metric
values are abstracted as Nat. -/
structure DracCacheManager where
  entries : List (MetricKind × Nat)
deriving DecidableEq, Repr

/-- Modelled from the spec: DracCreateCacheManager returns a fresh, empty
cache. -/
def DracCreateCacheManager : DracCacheManager := ⟨[]⟩

def lookupMetric (cache : DracCacheManager) (kind : MetricKind) : Option Nat :=
  (cache.entries.find? (fun p => decide (p.1 = kind))).map (fun p => p.2)

/-- Modelled from the spec: the collector-dispatch operation for a metric
kind. If the kind is already populated, the stored value is returned and
the collector is not invoked; otherwise the platform collector runs, and
on success its value is stored before being returned, on failure nothing
is stored. The third component counts how many times the collector was
invoked by this call (0 or 1). -/
def getMetric (collector : Except ErrorCode Nat) (cache : DracCacheManager)
    (kind : MetricKind) : Except ErrorCode Nat × DracCacheManager × Nat :=
  match lookupMetric cache kind with
  | some v => (.ok v, cache, 0)
  | none =>
    match collector with
    | .ok v => (.ok v, ⟨(kind, v) :: cache.entries⟩, 1)
    | .error e => (.error e, cache, 1)

/-- Outcome of running CacheManager::new of types.rs: the constructor
either yields a wrapped handle or hits the assertion. -/
inductive NewOutcome where
  | ok (handle : Nat)
  | panic
deriving DecidableEq, Repr

/-- Embeds CacheManager::new of types.rs as a function of the handle the
native DracCreateCacheManager call returns (none models a null pointer):
the code asserts the handle is non-null, so a null handle panics with
message Failed to create cache manager instead of returning an error. -/
def cacheManagerNew (handle : Option Nat) : NewOutcome :=
  match handle with
  | some h => .ok h
  | none => .panic

/-! ### String-valued metric getters (types.rs lines 305-394) -/

/-- Embeds the shared body of the seven string-metric getters of types.rs
(get_cpu_model, get_gpu_model, get_desktop_environment,
get_window_manager, get_shell, get_host, get_kernel_version; all seven
Rust bodies are identical): given the native call's status code and the
string pointer it wrote (none models null), return Ok with the decoded
string when the code is DRAC_SUCCESS and the pointer is non-null, and
otherwise Err of the converted status code. -/
def decodeStringMetric (result : Int) (ptr : Option String) :
    Except ErrorCode String :=
  if result = DRAC_SUCCESS ∧ ptr ≠ none then .ok (ptr.getD "")
  else .error (errorCodeFromDrac result)

def get_cpu_model (result : Int) (ptr : Option String) :
    Except ErrorCode String :=
  decodeStringMetric result ptr

def get_gpu_model (result : Int) (ptr : Option String) :
    Except ErrorCode String :=
  decodeStringMetric result ptr

def get_desktop_environment (result : Int) (ptr : Option String) :
    Except ErrorCode String :=
  decodeStringMetric result ptr

def get_window_manager (result : Int) (ptr : Option String) :
    Except ErrorCode String :=
  decodeStringMetric result ptr

def get_shell (result : Int) (ptr : Option String) :
    Except ErrorCode String :=
  decodeStringMetric result ptr

def get_host (result : Int) (ptr : Option String) :
    Except ErrorCode String :=
  decodeStringMetric result ptr

def get_kernel_version (result : Int) (ptr : Option String) :
    Except ErrorCode String :=
  decodeStringMetric result ptr

/-! ### Plugin system (types.rs lines 700-922) -/

/-- A Rust string as its byte sequence; CString::new(s) in Plugin::new,
Plugin::from_path and add_plugin_search_path fails exactly when the
bytes contain an interior null byte. -/
def containsNulByte (bytes : List Nat) : Bool :=
  bytes.contains 0

/-- Embeds Plugin::new of types.rs as a function of the native loader
behind DracLoadPlugin, given as an oracle from the name bytes to the
handle it returns (none models a null handle). The first component is
the constructor's result; the second records whether the native loader
was invoked. A name with an embedded null byte fails the CString
conversion and returns InvalidArgument before any loader call; a null
handle from the loader yields NotFound; otherwise the handle is wrapped. -/
def pluginNew (loader : List Nat → Option Nat) (plugin_name : List Nat) :
    Except ErrorCode Nat × Bool :=
  if containsNulByte plugin_name then (.error .invalidArgument, false)
  else
    match loader plugin_name with
    | none => (.error .notFound, true)
    | some h => (.ok h, true)

/-- Embeds Plugin::from_path of types.rs, identical in structure to
Plugin::new but calling DracLoadPluginFromPath with a filesystem path. -/
def pluginFromPath (loader : List Nat → Option Nat) (path : List Nat) :
    Except ErrorCode Nat × Bool :=
  if containsNulByte path then (.error .invalidArgument, false)
  else
    match loader path with
    | none => (.error .notFound, true)
    | some h => (.ok h, true)

/-- Modelled from the spec: the native DracLoadPlugin loader is not under
src/bindings; per the spec a by-name load resolves the name against the
process-wide static-plugin registry and the configured search paths, and
yields a null handle when the name is absent from both. Registry entries
and search-path-visible plugins are abstracted as lists of names. -/
def dracLoadPlugin (registry searchPathPlugins : List (List Nat))
    (nameBytes : List Nat) : Option Nat :=
  if registry.contains nameBytes ∨ searchPathPlugins.contains nameBytes then
    some 1
  else
    none

/-- One entry of the native sys::DracPluginFieldList: key and value are C
string pointers, each possibly null. -/
structure RawField where
  key : Option String
  value : Option String
deriving DecidableEq, Repr

/-- HashMap::insert of the Rust standard library on the association-list
representation: replaces the value at an existing key, appends otherwise. -/
def insertField (m : List (String × String)) (k v : String) :
    List (String × String) :=
  if m.any (fun p => decide (p.1 = k)) then
    m.map (fun p => if p.1 = k then (k, v) else p)
  else
    m ++ [(k, v)]

/-- One iteration of the loop in Plugin::get_fields of types.rs: an entry
whose key pointer is null is skipped (continue); a null value pointer
decodes to the empty string; the pair is inserted into the map. -/
def fieldStep (acc : List (String × String)) (f : RawField) :
    List (String × String) :=
  match f.key with
  | none => acc
  | some k => insertField acc k (f.value.getD "")

/-- Embeds Plugin::get_fields of types.rs as a function of the field list
the native DracPluginGetFields call returns: none models a null items
pointer. A null or empty list returns Ok of the empty map; otherwise the
entries are folded into the map and the result is always Ok. -/
def get_fields (fields : Option (List RawField)) :
    Except ErrorCode (List (String × String)) :=
  match fields with
  | none => .ok []
  | some items =>
    if items.isEmpty then .ok []
    else .ok (items.foldl fieldStep [])

/-- Embeds add_plugin_search_path of types.rs together with the
process-wide search-path list state (modelled from the spec: the native
DracAddPluginSearchPath appends its argument to that list). The binding
converts the path with CString::new inside an if-let: on an interior
null byte the native call is skipped and nothing is returned to the
caller, so the function returns the (possibly updated) list and the
error reported to the caller, which is always none since the Rust
function returns unit. -/
def add_plugin_search_path (searchPaths : List (List Nat))
    (path : List Nat) : List (List Nat) × Option ErrorCode :=
  if containsNulByte path then (searchPaths, none)
  else (searchPaths ++ [path], none)

/-! ### Theorems -/

/-- C2: the success sentinel DRAC_SUCCESS is 255, numerically disjoint
from the 18 error kinds occupying 0..17 and in particular not zero; code
0 decodes to ApiUnavailable, 255 decodes to Success, and Success is
decoded only from 255, so no wire code conflates no-error with the first
error kind. -/
theorem c2_success_sentinel_disjoint :
    DRAC_SUCCESS = 255
    ∧ ¬(0 ≤ DRAC_SUCCESS ∧ DRAC_SUCCESS ≤ 17)
    ∧ errorCodeFromDrac 0 = ErrorCode.apiUnavailable
    ∧ errorCodeFromDrac 255 = ErrorCode.success
    ∧ ∀ code : Int, errorCodeFromDrac code = ErrorCode.success →
        code = DRAC_SUCCESS := by
  refine ⟨rfl, by decide, rfl, rfl, ?_⟩
  intro code h
  unfold errorCodeFromDrac at h
  split at h
  all_goals first | rfl | exact absurd h (by decide)

theorem c2_success_sentinel_disjoint_witness :
    (255 : Int) = DRAC_SUCCESS :=
  c2_success_sentinel_disjoint.2.2.2.2 255 rfl

/-- C9: error-code decoding is total: every integer wire code maps to
some ErrorCode variant, and every code outside the documented set
(0..17 and 255) maps to Other. -/
theorem c9_error_decoding_total :
    (∀ code : Int, ∃ e : ErrorCode, errorCodeFromDrac code = e)
    ∧ ∀ code : Int, ¬(0 ≤ code ∧ code ≤ 17) → code ≠ 255 →
        errorCodeFromDrac code = ErrorCode.other := by
  refine ⟨fun code => ⟨_, rfl⟩, ?_⟩
  intro code h1 h2
  unfold errorCodeFromDrac
  split
  all_goals first | rfl | omega

theorem c9_error_decoding_total_witness :
    errorCodeFromDrac (-3) = ErrorCode.other :=
  c9_error_decoding_total.2 (-3) (by decide) (by decide)

/-- C4: on every successful get_battery_info call, raw percentage 255
decodes to an absent percentage, raw percentage up to 254 decodes to
present with that value, raw seconds-remaining below zero decodes to
absent, and raw seconds-remaining at least zero decodes to present with
that value. -/
theorem c4_battery_sentinel_decoding (battery : DracBattery) (b : Battery)
    (h : get_battery_info DRAC_SUCCESS battery = .ok b) :
    (battery.percentage = 255 → b.percentage = none)
    ∧ (battery.percentage ≤ 254 → b.percentage = some battery.percentage)
    ∧ (battery.timeRemainingSecs < 0 → b.time_remaining_secs = none)
    ∧ (0 ≤ battery.timeRemainingSecs →
        b.time_remaining_secs = some battery.timeRemainingSecs) := by
  unfold get_battery_info at h
  rw [if_pos rfl] at h
  injection h with h
  subst h
  refine ⟨fun hp => ?_, fun hp => ?_, fun ht => ?_, fun ht => ?_⟩
  · simp [hp]
  · simp only []
    rw [if_neg (by omega)]
  · simp only []
    rw [if_pos ht]
  · simp only []
    rw [if_neg (by omega)]

theorem c4_battery_sentinel_decoding_witness :
    (Battery.mk .charging (some 50) (some 600)).percentage = some 50 :=
  (c4_battery_sentinel_decoding ⟨1, 50, 600⟩
    ⟨.charging, some 50, some 600⟩ rfl).2.1 (by decide)

/-- C3 counterexample: creating a CacheManager does abort: when the
native constructor returns a null handle (e.g. allocation failure),
CacheManager::new hits its assertion and panics instead of returning an
error value such as OutOfMemory. -/
theorem c3_new_panics_on_null :
    cacheManagerNew none = NewOutcome.panic := rfl

/-- C3 amended: CacheManager creation is the exception to non-fatality:
it panics exactly when the native constructor yields a null handle, and
wraps the handle otherwise (every other binding operation is a total
function into a result value). -/
theorem c3_new_panic_exactly_on_null :
    cacheManagerNew none = NewOutcome.panic
    ∧ ∀ h : Nat, cacheManagerNew (some h) = NewOutcome.ok h :=
  ⟨rfl, fun _ => rfl⟩

/-- C7 failing input: when the native call reports DRAC_SUCCESS but
writes a null string pointer, get_cpu_model returns an Err carrying the
Success sentinel, leaking it to application code; the same body is
shared by all seven string-metric getters. -/
theorem c7_err_carries_success_sentinel :
    get_cpu_model DRAC_SUCCESS none = Except.error ErrorCode.success
    ∧ get_gpu_model DRAC_SUCCESS none = Except.error ErrorCode.success
    ∧ get_desktop_environment DRAC_SUCCESS none
        = Except.error ErrorCode.success
    ∧ get_window_manager DRAC_SUCCESS none = Except.error ErrorCode.success
    ∧ get_shell DRAC_SUCCESS none = Except.error ErrorCode.success
    ∧ get_host DRAC_SUCCESS none = Except.error ErrorCode.success
    ∧ get_kernel_version DRAC_SUCCESS none
        = Except.error ErrorCode.success :=
  ⟨rfl, rfl, rfl, rfl, rfl, rfl, rfl⟩

/-- C5: a plugin name or path containing an embedded null byte makes
Plugin::new and Plugin::from_path fail with InvalidArgument, the native
loader is never invoked, and no handle is produced. -/
theorem c5_nul_byte_fails_eagerly
    (loader : List Nat → Option Nat) (nameBytes : List Nat)
    (h : containsNulByte nameBytes = true) :
    pluginNew loader nameBytes = (.error .invalidArgument, false)
    ∧ pluginFromPath loader nameBytes
        = (.error .invalidArgument, false) := by
  constructor <;> simp [pluginNew, pluginFromPath, h]

theorem c5_nul_byte_fails_eagerly_witness :
    pluginNew (fun _ => some 1) [65, 0, 66]
      = (.error .invalidArgument, false) :=
  (c5_nul_byte_fails_eagerly (fun _ => some 1) [65, 0, 66] (by decide)).1

/-- C6: a by-name load of a name absent from both the static registry
and every search path yields a null handle from the modelled native
loader and therefore NotFound; and in general, whenever the underlying
loader yields a null handle, both Plugin::new and Plugin::from_path
report NotFound rather than returning a handle. -/
theorem c6_absent_name_not_found
    (registry searchPathPlugins : List (List Nat)) (nameBytes : List Nat)
    (hnul : containsNulByte nameBytes = false)
    (habsent : registry.contains nameBytes = false
      ∧ searchPathPlugins.contains nameBytes = false) :
    pluginNew (dracLoadPlugin registry searchPathPlugins) nameBytes
      = (.error .notFound, true)
    ∧ ∀ (loader : List Nat → Option Nat) (path : List Nat),
        containsNulByte path = false → loader path = none →
        pluginNew loader path = (.error .notFound, true)
        ∧ pluginFromPath loader path = (.error .notFound, true) := by
  constructor
  · have h1 : ¬ nameBytes ∈ registry := by
      simpa using habsent.1
    have h2 : ¬ nameBytes ∈ searchPathPlugins := by
      simpa using habsent.2
    simp [pluginNew, hnul, dracLoadPlugin, h1, h2]
  · intro loader path hp hl
    constructor <;> simp [pluginNew, pluginFromPath, hp, hl]

theorem c6_absent_name_not_found_witness :
    pluginNew (dracLoadPlugin [] []) [65] = (.error .notFound, true) :=
  (c6_absent_name_not_found [] [] [65] (by decide)
    ⟨by decide, by decide⟩).1

/-- C10: add_plugin_search_path called with a path containing an
embedded null byte is a silent no-op: the search-path list is unchanged
and no error is reported to the caller. -/
theorem c10_nul_byte_silent_noop
    (searchPaths : List (List Nat)) (path : List Nat)
    (h : containsNulByte path = true) :
    add_plugin_search_path searchPaths path = (searchPaths, none) := by
  simp [add_plugin_search_path, h]

theorem c10_nul_byte_silent_noop_witness :
    add_plugin_search_path [[65]] [0] = ([[65]], none) :=
  c10_nul_byte_silent_noop [[65]] [0] (by decide)

/-- Every pair in the result of insertField is either already in the map
or is the inserted pair. -/
theorem mem_insertField {m : List (String × String)} {k v : String}
    {p : String × String} (h : p ∈ insertField m k v) :
    p ∈ m ∨ p = (k, v) := by
  unfold insertField at h
  split_ifs at h with hk
  · rcases List.mem_map.mp h with ⟨a, ha, hpa⟩
    by_cases hak : a.1 = k
    · right
      rw [if_pos hak] at hpa
      exact hpa.symm
    · left
      rw [if_neg hak] at hpa
      exact hpa ▸ ha
  · rcases List.mem_append.mp h with hm | hs
    · exact Or.inl hm
    · exact Or.inr (List.mem_singleton.mp hs)

/-- Every pair produced by folding fieldStep over raw entries either was
in the accumulator or originates from an entry with a non-null key, the
pair's value being that entry's value decoded with null as the empty
string. -/
theorem mem_foldl_fieldStep :
    ∀ (items : List RawField) (acc : List (String × String))
      (p : String × String), p ∈ items.foldl fieldStep acc →
      p ∈ acc ∨ ∃ f ∈ items, f.key = some p.1 ∧ f.value.getD "" = p.2 := by
  intro items
  induction items with
  | nil => exact fun acc p h => Or.inl h
  | cons f rest ih =>
    intro acc p h
    rw [List.foldl_cons] at h
    rcases ih (fieldStep acc f) p h with hacc | ⟨g, hg, hgp⟩
    · unfold fieldStep at hacc
      rcases hk : f.key with _ | k
      · rw [hk] at hacc
        exact Or.inl hacc
      · rw [hk] at hacc
        rcases mem_insertField hacc with hm | hp
        · exact Or.inl hm
        · refine Or.inr ⟨f, List.mem_cons_self f rest, ?_, ?_⟩
          · rw [hk, hp]
          · rw [hp]
    · exact Or.inr ⟨g, List.mem_cons_of_mem f hg, hgp⟩

/-- C8: get_fields always returns an Ok map: a null or empty underlying
field list yields the empty map rather than an error, the result is Ok
for every field list, and every key-value pair in the returned map
originates from an entry whose key pointer was non-null (null-key
entries are skipped) with a null value pointer decoded as the empty
string. -/
theorem c8_get_fields_flat_map :
    get_fields none = .ok []
    ∧ get_fields (some []) = .ok []
    ∧ (∀ fields, ∃ m, get_fields fields = .ok m)
    ∧ ∀ (items : List RawField) (m : List (String × String))
        (p : String × String),
        get_fields (some items) = .ok m → p ∈ m →
        ∃ f ∈ items, f.key = some p.1 ∧ f.value.getD "" = p.2 := by
  refine ⟨rfl, rfl, ?_, ?_⟩
  · intro fields
    rcases fields with _ | items
    · exact ⟨[], rfl⟩
    · by_cases hi : items.isEmpty
      · exact ⟨[], by simp [get_fields, hi]⟩
      · exact ⟨items.foldl fieldStep [], by simp [get_fields, hi]⟩
  · intro items m p hok hp
    simp only [get_fields] at hok
    split at hok
    · injection hok with hok
      rw [← hok] at hp
      exact absurd hp (List.not_mem_nil p)
    · injection hok with hok
      rw [← hok] at hp
      rcases mem_foldl_fieldStep items [] p hp with habs | hgood
      · exact absurd habs (List.not_mem_nil p)
      · exact hgood

theorem c8_get_fields_flat_map_witness :
    ∃ f ∈ [RawField.mk (some "k") none],
      f.key = some ("k", "").1 ∧ f.value.getD "" = ("k", "").2 :=
  c8_get_fields_flat_map.2.2.2 [⟨some "k", none⟩] [("k", "")]
    ("k", "") rfl (List.mem_singleton.mpr rfl)

/-- A populated kind makes the dispatch return the stored value with the
cache unchanged and the collector not invoked. -/
theorem getMetric_lookup_some {cache : DracCacheManager}
    {kind : MetricKind} {v : Nat}
    (hl : lookupMetric cache kind = some v)
    (collector : Except ErrorCode Nat) :
    getMetric collector cache kind = (.ok v, cache, 0) := by
  unfold getMetric
  rw [hl]

/-- An unpopulated kind with a succeeding collector stores the collected
value and reports one collector invocation. -/
theorem getMetric_lookup_none_ok {cache : DracCacheManager}
    {kind : MetricKind} (hl : lookupMetric cache kind = none) (v : Nat) :
    getMetric (.ok v) cache kind
      = (.ok v, ⟨(kind, v) :: cache.entries⟩, 1) := by
  unfold getMetric
  rw [hl]

/-- An unpopulated kind with a failing collector stores nothing and
reports one collector invocation. -/
theorem getMetric_lookup_none_error {cache : DracCacheManager}
    {kind : MetricKind} (hl : lookupMetric cache kind = none)
    (e : ErrorCode) :
    getMetric (.error e) cache kind = (.error e, cache, 1) := by
  unfold getMetric
  rw [hl]

/-- Looking up a kind just stored at the head of the entry list yields
the stored value. -/
theorem lookupMetric_cons_self (entries : List (MetricKind × Nat))
    (kind : MetricKind) (v : Nat) :
    lookupMetric ⟨(kind, v) :: entries⟩ kind = some v := by
  unfold lookupMetric
  rw [List.find?_cons_of_pos _ (by simp)]
  rfl

/-- C1: at-most-once collector semantics of the modelled cache
dispatch: once a get for a kind has succeeded, any later get for the
same kind on the resulting cache returns the stored value, leaves the
cache unchanged and invokes its collector zero times, whatever that
collector would do; while on a freshly created cache manager the
dispatch invokes the collector (once), so recreation permits the
collector to run again. -/
theorem c1_collector_at_most_once
    (collector nextCollector : Except ErrorCode Nat)
    (cache cacheAfter : DracCacheManager) (kind : MetricKind)
    (v : Nat) (invocations : Nat)
    (h : getMetric collector cache kind = (.ok v, cacheAfter, invocations)) :
    getMetric nextCollector cacheAfter kind = (.ok v, cacheAfter, 0)
    ∧ ∀ freshCollector : Except ErrorCode Nat,
        (getMetric freshCollector DracCreateCacheManager kind).2.2 = 1 := by
  constructor
  · rcases hl : lookupMetric cache kind with _ | w
    · rcases collector with e | w
      · rw [getMetric_lookup_none_error hl e] at h
        simp only [Prod.mk.injEq] at h
        exact absurd h.1 (by simp)
      · rw [getMetric_lookup_none_ok hl w] at h
        simp only [Prod.mk.injEq, Except.ok.injEq] at h
        obtain ⟨hv, hc, -⟩ := h
        subst hv
        subst hc
        exact getMetric_lookup_some
          (lookupMetric_cons_self cache.entries kind w) nextCollector
    · rw [getMetric_lookup_some hl collector] at h
      simp only [Prod.mk.injEq, Except.ok.injEq] at h
      obtain ⟨hv, hc, -⟩ := h
      subst hv
      subst hc
      exact getMetric_lookup_some hl nextCollector
  · intro freshCollector
    rcases freshCollector with e | w <;> rfl

theorem c1_collector_at_most_once_witness :
    getMetric (.error .notFound) ⟨[(MetricKind.memInfo, 7)]⟩
      MetricKind.memInfo = (.ok 7, ⟨[(MetricKind.memInfo, 7)]⟩, 0) :=
  (c1_collector_at_most_once (.ok 7) (.error .notFound)
    DracCreateCacheManager ⟨[(MetricKind.memInfo, 7)]⟩
    MetricKind.memInfo 7 1 rfl).1

end Draconis
